import Mathlib

/-!
Verification of the Mathex focus-routing coordination layer.

The definitions below are a shallow embedding of the repository's source:

* `ProviderState`, `stepState`, `insertAtCursorEffects`, `runProvider` embed
  the `MathProvider` component (the Coordinator): its `activeInputId` React
  state, the `activeInputIdRef` mutable ref that is re-synchronised to the
  state on every render commit, and the `inputCallbacksRef` Map.  Callbacks
  are modelled as opaque numeric tokens; invoking one is recorded as an
  effect `(token, latex)`.
* `ButtonConfig`, the keyboard layout tables, and `handleButtonClick` embed
  the `MathKeyboard` component's button-resolution logic.
* `mathInputMount` and `handleKeyboardInsertion` embed the `MathInput`
  component's mount-time initialization/registration effects and its
  command handler.

React state updates (`setActiveInputId`) are applied in program order, and a
separate `renderCommit` event models the render that assigns
`activeInputIdRef.current = activeInputId` (React batches state updates
raised inside an event task; the commit happens after the task finishes, so
no `renderCommit` can occur between two calls of the same synchronous task).
Mutations of `useRef` Maps (`inputCallbacksRef`) are immediate, as in the
source.
-/

set_option maxRecDepth 16384

namespace Mathex

/-- Opaque token standing for one `InputUpdateCallback` function value. -/
abbrev CallbackId := Nat

/-- The Coordinator state owned by `MathProvider`:
`activeInputId` is the React state; `activeInputIdRef` mirrors
`activeInputIdRef.current`, which the component body re-assigns on every
render; `inputCallbacks` is the contents of `inputCallbacksRef.current`
(a JS `Map`), observed through `get`. -/
structure ProviderState where
  activeInputId : Option String
  activeInputIdRef : Option String
  inputCallbacks : String → Option CallbackId

/-- State of a freshly mounted `MathProvider`: `useState(null)`,
`useRef(null)` (synced on first render), and an empty `Map`. -/
def initialProvider : ProviderState :=
  { activeInputId := none, activeInputIdRef := none, inputCallbacks := fun _ => none }

/-- The operations the Coordinator exposes, plus `renderCommit`, the React
render that executes `activeInputIdRef.current = activeInputId`. -/
inductive PEvent where
  | registerInput (id : String) (cb : CallbackId)
  | unregisterInput (id : String)
  | setActiveInput (id : String)
  | renderCommit
  | insertAtCursor (latex : String)
deriving DecidableEq

/-- `inputCallbacksRef.current.set(id, cb)`. -/
def mapSet (m : String → Option CallbackId) (id : String) (cb : CallbackId) :
    String → Option CallbackId :=
  fun k => if k = id then some cb else m k

/-- `inputCallbacksRef.current.delete(id)`. -/
def mapDelete (m : String → Option CallbackId) (id : String) :
    String → Option CallbackId :=
  fun k => if k = id then none else m k

/-- One Coordinator operation, as written in `MathProvider`:
`registerInput` sets the Map entry; `unregisterInput` deletes the entry and
runs `setActiveInputId(current => current === id ? null : current)`;
`setActiveInput` runs `setActiveInputId(id)`; `renderCommit` syncs the ref;
`insertAtCursor` mutates nothing (it only reads and invokes a callback). -/
def stepState (s : ProviderState) : PEvent → ProviderState
  | .registerInput id cb => { s with inputCallbacks := mapSet s.inputCallbacks id cb }
  | .unregisterInput id =>
      { s with inputCallbacks := mapDelete s.inputCallbacks id,
               activeInputId := if s.activeInputId = some id then none else s.activeInputId }
  | .setActiveInput id => { s with activeInputId := some id }
  | .renderCommit => { s with activeInputIdRef := s.activeInputId }
  | .insertAtCursor _ => s

/-- The callback invocations performed by `insertAtCursor(latex)`:
it reads `activeInputIdRef.current`; if null it warns and returns; otherwise
it looks the id up in the Map and, when a callback is found, invokes it once
with `latex`; when none is found it logs and returns. -/
def insertAtCursorEffects (s : ProviderState) (latex : String) :
    List (CallbackId × String) :=
  match s.activeInputIdRef with
  | none => []
  | some id =>
    match s.inputCallbacks id with
    | some cb => [(cb, latex)]
    | none => []

/-- Run a sequence of Coordinator operations. -/
def runProvider (s : ProviderState) : List PEvent → ProviderState
  | [] => s
  | e :: evs => runProvider (stepState s e) evs

theorem runProvider_append (l₁ l₂ : List PEvent) (s : ProviderState) :
    runProvider s (l₁ ++ l₂) = runProvider (runProvider s l₁) l₂ := by
  induction l₁ generalizing s with
  | nil => rfl
  | cons e t ih => simp [runProvider, ih]

/-- Is the event a `setActiveInput` call? -/
def isSetActive : PEvent → Bool
  | .setActiveInput _ => true
  | _ => false

/-- Is the event a `setActiveInput` or `unregisterInput` call? -/
def isActiveEvent : PEvent → Bool
  | .setActiveInput _ => true
  | .unregisterInput _ => true
  | _ => false

/-- Is the event a `registerInput` or `unregisterInput` call? -/
def isRegistryEvent : PEvent → Bool
  | .registerInput _ _ => true
  | .unregisterInput _ => true
  | _ => false

/-- The spec-side reading of "`activeId` equals the argument of the most
recent `setActive` call and that id has not been unregistered since": the
trace splits as `l ++ setActiveInput a :: r` where `r` contains no further
`setActiveInput` and no `unregisterInput a`. -/
def LastActivation (evs : List PEvent) (a : String) : Prop :=
  ∃ l r, evs = l ++ PEvent.setActiveInput a :: r ∧
    (∀ e ∈ r, isSetActive e = false) ∧ PEvent.unregisterInput a ∉ r

theorem lastActivation_nil (a : String) : ¬ LastActivation [] a := by
  rintro ⟨l, r, h, -, -⟩
  exact absurd h (by simp)

theorem lastActivation_cons (e : PEvent) (evs : List PEvent) (a : String) :
    LastActivation (e :: evs) a ↔
      LastActivation evs a ∨
        (e = PEvent.setActiveInput a ∧ (∀ x ∈ evs, isSetActive x = false) ∧
          PEvent.unregisterInput a ∉ evs) := by
  constructor
  · rintro ⟨l, r, h, hr, hnr⟩
    cases l with
    | nil =>
      simp only [List.nil_append, List.cons.injEq] at h
      exact Or.inr ⟨h.1, h.2 ▸ hr, h.2 ▸ hnr⟩
    | cons l₀ l' =>
      simp only [List.cons_append, List.cons.injEq] at h
      exact Or.inl ⟨l', r, h.2, hr, hnr⟩
  · rintro (⟨l, r, h, hr, hnr⟩ | ⟨he, hevs, hne⟩)
    · exact ⟨e :: l, r, by simp [h], hr, hnr⟩
    · exact ⟨[], evs, by simp [he], hevs, hne⟩

/-- What one operation does to the `activeInputId` React state, phrased as
an equation on reads. -/
theorem stepState_active_eq_some (s : ProviderState) (e : PEvent) (a : String) :
    (stepState s e).activeInputId = some a ↔
      e = PEvent.setActiveInput a ∨
        (isSetActive e = false ∧ ¬ PEvent.unregisterInput a = e ∧
          s.activeInputId = some a) := by
  cases e with
  | registerInput b cb => simp [stepState, isSetActive]
  | renderCommit => simp [stepState, isSetActive]
  | insertAtCursor l => simp [stepState, isSetActive]
  | setActiveInput b => simp [stepState, isSetActive, eq_comm]
  | unregisterInput b =>
    by_cases hab : a = b
    · subst hab
      by_cases hb : s.activeInputId = some a
      · simp [stepState, hb, isSetActive]
      · simp [stepState, hb, isSetActive]
    · by_cases hb : s.activeInputId = some b
      · simp only [stepState, if_pos hb, isSetActive]
        constructor
        · intro h
          exact absurd h (by simp)
        · rintro (h | ⟨-, hne, ha⟩)
          · exact absurd h (by simp)
          · rw [hb] at ha
            exact absurd (Option.some.inj ha).symm (by simpa using hne)
      · simp [stepState, hb, isSetActive, hab]

/-- Characterisation of the `activeInputId` React state after running a
trace from an arbitrary start state: it is `some a` exactly when the trace
ends with an un-revoked activation of `a`, or the trace leaves a pre-existing
activation of `a` untouched. -/
theorem activeInputId_run_iff (evs : List PEvent) (s : ProviderState) (a : String) :
    (runProvider s evs).activeInputId = some a ↔
      LastActivation evs a ∨
        ((∀ e ∈ evs, isSetActive e = false) ∧ PEvent.unregisterInput a ∉ evs ∧
          s.activeInputId = some a) := by
  induction evs generalizing s with
  | nil =>
    constructor
    · intro h
      exact Or.inr ⟨by simp, by simp, h⟩
    · rintro (h | ⟨-, -, h⟩)
      · exact absurd h (lastActivation_nil a)
      · exact h
  | cons e t ih =>
    rw [runProvider, ih, lastActivation_cons, stepState_active_eq_some]
    simp only [List.forall_mem_cons]
    simp only [List.mem_cons, not_or]
    tauto

/-- Does the event write the `Map` entry of `id`? -/
def touchesId (id : String) : PEvent → Bool
  | .registerInput j _ => j == id
  | .unregisterInput j => j == id
  | _ => false

/-- The spec-side reading of "`id` bound to the last handler registered for
it, not subsequently unregistered": the trace splits as
`l ++ registerInput id cb :: r` with no later write to `id`'s entry in `r`. -/
def LastRegistration (evs : List PEvent) (id : String) (cb : CallbackId) : Prop :=
  ∃ l r, evs = l ++ PEvent.registerInput id cb :: r ∧ ∀ e ∈ r, touchesId id e = false

theorem lastRegistration_nil (id : String) (cb : CallbackId) :
    ¬ LastRegistration [] id cb := by
  rintro ⟨l, r, h, -⟩
  exact absurd h (by simp)

theorem lastRegistration_cons (e : PEvent) (evs : List PEvent) (id : String)
    (cb : CallbackId) :
    LastRegistration (e :: evs) id cb ↔
      LastRegistration evs id cb ∨
        (e = PEvent.registerInput id cb ∧ ∀ x ∈ evs, touchesId id x = false) := by
  constructor
  · rintro ⟨l, r, h, hr⟩
    cases l with
    | nil =>
      simp only [List.nil_append, List.cons.injEq] at h
      exact Or.inr ⟨h.1, h.2 ▸ hr⟩
    | cons l₀ l' =>
      simp only [List.cons_append, List.cons.injEq] at h
      exact Or.inl ⟨l', r, h.2, hr⟩
  · rintro (⟨l, r, h, hr⟩ | ⟨he, hevs⟩)
    · exact ⟨e :: l, r, by simp [h], hr⟩
    · exact ⟨[], evs, by simp [he], hevs⟩

/-- What one operation does to a `Map` entry, phrased as an equation on
`get`. -/
theorem stepState_lookup_eq_some (s : ProviderState) (e : PEvent) (id : String)
    (cb : CallbackId) :
    (stepState s e).inputCallbacks id = some cb ↔
      e = PEvent.registerInput id cb ∨
        (touchesId id e = false ∧ s.inputCallbacks id = some cb) := by
  cases e with
  | setActiveInput j => simp [stepState, touchesId]
  | renderCommit => simp [stepState, touchesId]
  | insertAtCursor l => simp [stepState, touchesId]
  | registerInput j c =>
    by_cases hj : id = j
    · subst hj
      simp [stepState, mapSet, touchesId, eq_comm]
    · simp [stepState, mapSet, touchesId, hj, Ne.symm hj]
  | unregisterInput j =>
    by_cases hj : id = j
    · subst hj
      simp [stepState, mapDelete, touchesId]
    · simp [stepState, mapDelete, touchesId, hj, Ne.symm hj]

/-- Characterisation of a `Map` entry after running a trace from an
arbitrary start state. -/
theorem lookup_run_iff (evs : List PEvent) (s : ProviderState) (id : String)
    (cb : CallbackId) :
    (runProvider s evs).inputCallbacks id = some cb ↔
      LastRegistration evs id cb ∨
        ((∀ e ∈ evs, touchesId id e = false) ∧ s.inputCallbacks id = some cb) := by
  induction evs generalizing s with
  | nil =>
    constructor
    · intro h
      exact Or.inr ⟨by simp, h⟩
    · rintro (h | ⟨-, h⟩)
      · exact absurd h (lastRegistration_nil id cb)
      · exact h
  | cons e t ih =>
    rw [runProvider, ih, lastRegistration_cons, stepState_lookup_eq_some]
    simp only [List.forall_mem_cons]
    tauto

/-- C2: after any finite sequence of `setActiveInput`/`unregisterInput`
calls, `activeInputId` is `some a` exactly when the most recent
`setActiveInput` call targeted `a` and no `unregisterInput a` followed it;
and a single `unregisterInput id` clears the active id when it was `id` and
leaves it unchanged otherwise. -/
theorem activeId_tracks_most_recent_setActive (evs : List PEvent)
    (_hevs : ∀ e ∈ evs, isActiveEvent e = true) (a : String) :
    ((runProvider initialProvider evs).activeInputId = some a ↔ LastActivation evs a)
    ∧ ∀ (s : ProviderState) (id : String),
        (stepState s (PEvent.unregisterInput id)).activeInputId =
          if s.activeInputId = some id then none else s.activeInputId := by
  refine ⟨?_, fun s id => rfl⟩
  rw [activeInputId_run_iff]
  simp [initialProvider]

/-- Witness for C2 at the concrete trace
`[setActiveInput "a", unregisterInput "b"]` and at a concrete state whose
active id `"c"` gets unregistered. -/
theorem activeId_tracks_most_recent_setActive_witness :
    (runProvider initialProvider
      [PEvent.setActiveInput "a", PEvent.unregisterInput "b"]).activeInputId = some "a"
    ∧ (stepState ⟨some "c", none, fun _ => none⟩
        (PEvent.unregisterInput "c")).activeInputId = none := by
  obtain ⟨h1, h2⟩ := activeId_tracks_most_recent_setActive
    [PEvent.setActiveInput "a", PEvent.unregisterInput "b"] (by decide) "a"
  refine ⟨h1.mpr ⟨[], [PEvent.unregisterInput "b"], rfl, by decide, by decide⟩, ?_⟩
  exact (h2 ⟨some "c", none, fun _ => none⟩ "c").trans (by decide)

/-- C3: for any finite sequence of `registerInput`/`unregisterInput` calls,
the `Map` holds exactly the ids registered and not subsequently
unregistered, each bound to the last handler registered for it; writes to
one id never change another id's entry; and deleting an absent id leaves
the `Map` intact. -/
theorem handlers_registration_integrity (evs : List PEvent)
    (_hevs : ∀ e ∈ evs, isRegistryEvent e = true) (id : String) (cb : CallbackId) :
    ((runProvider initialProvider evs).inputCallbacks id = some cb ↔
        LastRegistration evs id cb)
    ∧ (∀ (s : ProviderState) (j : String) (c : CallbackId) (k : String), k ≠ j →
        (stepState s (PEvent.registerInput j c)).inputCallbacks k = s.inputCallbacks k
        ∧ (stepState s (PEvent.unregisterInput j)).inputCallbacks k = s.inputCallbacks k)
    ∧ (∀ (s : ProviderState) (j : String), s.inputCallbacks j = none →
        (stepState s (PEvent.unregisterInput j)).inputCallbacks = s.inputCallbacks) := by
  refine ⟨?_, ?_, ?_⟩
  · rw [lookup_run_iff]
    simp [initialProvider]
  · intro s j c k hk
    constructor
    · simp [stepState, mapSet, hk]
    · simp [stepState, mapDelete, hk]
  · intro s j h
    funext k
    by_cases hk : k = j
    · subst hk
      simp [stepState, mapDelete, h.symm]
    · simp [stepState, mapDelete, hk]

/-- Witness for C3: the trace `register p 1, register q 2, register p 3,
unregister q` leaves `p` bound to the last handler `3`; registering `p`
does not create a `q` entry; unregistering an absent id changes nothing. -/
theorem handlers_registration_integrity_witness :
    (runProvider initialProvider
      [PEvent.registerInput "p" 1, PEvent.registerInput "q" 2,
       PEvent.registerInput "p" 3, PEvent.unregisterInput "q"]).inputCallbacks "p"
      = some 3
    ∧ (stepState initialProvider (PEvent.registerInput "p" 1)).inputCallbacks "q" = none
    ∧ (stepState initialProvider (PEvent.unregisterInput "z")).inputCallbacks
        = initialProvider.inputCallbacks := by
  obtain ⟨h1, h2, h3⟩ := handlers_registration_integrity
    [PEvent.registerInput "p" 1, PEvent.registerInput "q" 2,
     PEvent.registerInput "p" 3, PEvent.unregisterInput "q"] (by decide) "p" 3
  refine ⟨h1.mpr ⟨[PEvent.registerInput "p" 1, PEvent.registerInput "q" 2],
    [PEvent.unregisterInput "q"], rfl, by decide⟩, ?_, h3 initialProvider "z" rfl⟩
  exact ((h2 initialProvider "p" 1 "q" (by decide)).1).trans rfl

/-- C1 counterexample: `setActiveInput "A"` followed by `insertAtCursor` in
the same synchronous task (no render commit in between) routes the command
to the stale active id `"B"` — callback token `2`, the handler registered by
`B` — and not to `A`'s handler (token `1`).  `setActiveInput` only calls the
React state setter, while `insertAtCursor` reads `activeInputIdRef.current`,
which is re-assigned only when a render commits, so the claimed same-task
guarantee fails. -/
theorem dispatch_same_task_stale_ref_cex :
    insertAtCursorEffects
      (runProvider initialProvider
        [PEvent.registerInput "A" 1, PEvent.registerInput "B" 2,
         PEvent.setActiveInput "B", PEvent.renderCommit, PEvent.setActiveInput "A"])
      "cmd" = [(2, "cmd")] := by
  decide

/-- C1 (amended): after `setActiveInput a` has been followed by a render
commit (the situation after the focus event's task finishes, before the next
click task runs), `insertAtCursor cmd` invokes exactly the handler registered
for `a`, once, with `cmd`, and no other adapter's handler. -/
theorem dispatch_after_commit_routes_to_active (t : List PEvent)
    (a cmd : String) (cb : CallbackId)
    (h : (runProvider initialProvider
        (t ++ [PEvent.setActiveInput a, PEvent.renderCommit])).inputCallbacks a
        = some cb) :
    insertAtCursorEffects
      (runProvider initialProvider (t ++ [PEvent.setActiveInput a, PEvent.renderCommit]))
      cmd = [(cb, cmd)] := by
  rw [runProvider_append] at h ⊢
  simp only [runProvider, stepState] at h ⊢
  simp [insertAtCursorEffects, h]

/-- Witness for the amended C1: with `A ↦ 1` and `B ↦ 2` registered and the
activation of `A` committed, dispatch invokes exactly `A`'s handler. -/
theorem dispatch_after_commit_routes_to_active_witness :
    insertAtCursorEffects
      (runProvider initialProvider
        ([PEvent.registerInput "A" 1, PEvent.registerInput "B" 2] ++
          [PEvent.setActiveInput "A", PEvent.renderCommit])) "x" = [(1, "x")] :=
  dispatch_after_commit_routes_to_active
    [PEvent.registerInput "A" 1, PEvent.registerInput "B" 2] "A" "x" 1 (by decide)

/-- C4: `insertAtCursor` with no active id invokes no callback; with an
active id that has no `Map` entry it invokes no callback; it never mutates
Coordinator state (it is a total function — the source path only logs and
returns); and after a trace containing no `setActiveInput` call it invokes
no callback at all. -/
theorem dispatch_miss_is_safe :
    (∀ (s : ProviderState) (cmd : String), s.activeInputIdRef = none →
        insertAtCursorEffects s cmd = [])
    ∧ (∀ (s : ProviderState) (a cmd : String), s.activeInputIdRef = some a →
        s.inputCallbacks a = none → insertAtCursorEffects s cmd = [])
    ∧ (∀ (s : ProviderState) (cmd : String),
        stepState s (PEvent.insertAtCursor cmd) = s)
    ∧ (∀ (evs : List PEvent) (cmd : String), (∀ e ∈ evs, isSetActive e = false) →
        insertAtCursorEffects (runProvider initialProvider evs) cmd = []) := by
  refine ⟨?_, ?_, fun s cmd => rfl, ?_⟩
  · intro s cmd h
    simp [insertAtCursorEffects, h]
  · intro s a cmd h1 h2
    simp [insertAtCursorEffects, h1, h2]
  · intro evs cmd h
    have key : ∀ (evs : List PEvent) (s : ProviderState),
        (∀ e ∈ evs, isSetActive e = false) →
        s.activeInputId = none → s.activeInputIdRef = none →
        (runProvider s evs).activeInputId = none
          ∧ (runProvider s evs).activeInputIdRef = none := by
      intro evs
      induction evs with
      | nil => exact fun s _ h1 h2 => ⟨h1, h2⟩
      | cons e rest ih =>
        intro s hall h1 h2
        refine ih (stepState s e) (fun x hx => hall x (List.mem_cons_of_mem _ hx)) ?_ ?_
        · cases e with
          | setActiveInput j =>
            have := hall (PEvent.setActiveInput j) (by simp)
            simp [isSetActive] at this
          | unregisterInput j => simp [stepState, h1]
          | registerInput j c => simpa [stepState] using h1
          | renderCommit => simpa [stepState] using h1
          | insertAtCursor l => simpa [stepState] using h1
        · cases e with
          | setActiveInput j =>
            have := hall (PEvent.setActiveInput j) (by simp)
            simp [isSetActive] at this
          | unregisterInput j => simpa [stepState] using h2
          | registerInput j c => simpa [stepState] using h2
          | renderCommit => simpa [stepState] using h1
          | insertAtCursor l => simpa [stepState] using h2
    obtain ⟨-, href⟩ := key evs initialProvider h rfl rfl
    simp [insertAtCursorEffects, href]

/-- Witness for C4: dispatch on the fresh Coordinator, on a state whose
active ref has no `Map` entry, a state fixed point, and a register-only
trace. -/
theorem dispatch_miss_is_safe_witness :
    insertAtCursorEffects initialProvider "x" = []
    ∧ insertAtCursorEffects ⟨none, some "g", fun _ => none⟩ "x" = []
    ∧ stepState initialProvider (PEvent.insertAtCursor "x") = initialProvider
    ∧ insertAtCursorEffects
        (runProvider initialProvider [PEvent.registerInput "g" 5]) "x" = [] :=
  ⟨dispatch_miss_is_safe.1 initialProvider "x" rfl,
   dispatch_miss_is_safe.2.1 ⟨none, some "g", fun _ => none⟩ "g" "x" rfl rfl,
   dispatch_miss_is_safe.2.2.1 initialProvider "x",
   dispatch_miss_is_safe.2.2.2 [PEvent.registerInput "g" 5] "x" (by decide)⟩

/-- C5 counterexample: `setActiveInput "a"` on a fresh Coordinator — the
source sets `activeInputId` unconditionally, without checking membership in
the `Map` — reaches a state where the active id is set but is not a key of
`handlers`, contradicting the claimed invariant. -/
theorem setActive_unregistered_id_cex :
    (runProvider initialProvider [PEvent.setActiveInput "a"]).activeInputId = some "a"
    ∧ (runProvider initialProvider [PEvent.setActiveInput "a"]).inputCallbacks "a"
        = none := by
  exact ⟨rfl, rfl⟩

/-- C5 (amended): the invariant "the active id, if set, is a key of
`handlers`" holds for every state reachable by a trace in which each
`setActiveInput` targets an id registered at that moment (`guardedTrace`).
Unrestricted `setActiveInput` breaks it, since the source never validates
membership. -/
def setActiveGuard (s : ProviderState) : PEvent → Bool
  | PEvent.setActiveInput id => (s.inputCallbacks id).isSome
  | _ => true

def guardedTrace (s : ProviderState) : List PEvent → Bool
  | [] => true
  | e :: evs => setActiveGuard s e && guardedTrace (stepState s e) evs

/-- C5 (amended), the theorem: along guarded traces the active id is always
a key of the `Map`. -/
theorem activeId_registered_of_guarded (evs : List PEvent)
    (hg : guardedTrace initialProvider evs = true) (a : String)
    (ha : (runProvider initialProvider evs).activeInputId = some a) :
    ((runProvider initialProvider evs).inputCallbacks a).isSome = true := by
  suffices H : ∀ (evs : List PEvent) (s : ProviderState), guardedTrace s evs = true →
      (∀ b, s.activeInputId = some b → (s.inputCallbacks b).isSome = true) →
      ∀ b, (runProvider s evs).activeInputId = some b →
        ((runProvider s evs).inputCallbacks b).isSome = true by
    refine H evs initialProvider hg ?_ a ha
    intro b hb
    simp [initialProvider] at hb
  intro evs
  induction evs with
  | nil => exact fun s _ hinv b hb => hinv b hb
  | cons e t ih =>
    intro s hg hinv b hb
    rw [guardedTrace, Bool.and_eq_true] at hg
    refine ih (stepState s e) hg.2 ?_ b hb
    intro c hc
    cases e with
    | setActiveInput j =>
      have hj : j = c := by simpa [stepState] using hc
      simpa [stepState, setActiveGuard, hj] using hg.1
    | unregisterInput j =>
      by_cases hcj : s.activeInputId = some j
      · simp [stepState, hcj] at hc
      · have hc' : s.activeInputId = some c := by simpa [stepState, hcj] using hc
        have hne : ¬ c = j := by
          intro h
          exact hcj (h ▸ hc')
        simpa [stepState, mapDelete, hne] using hinv c hc'
    | registerInput j cb =>
      have hc' : s.activeInputId = some c := by simpa [stepState] using hc
      by_cases hcj : c = j
      · simp [stepState, mapSet, hcj]
      · simpa [stepState, mapSet, hcj] using hinv c hc'
    | renderCommit =>
      have hc' : s.activeInputId = some c := by simpa [stepState] using hc
      simpa [stepState] using hinv c hc'
    | insertAtCursor l =>
      have hc' : s.activeInputId = some c := by simpa [stepState] using hc
      simpa [stepState] using hinv c hc'

/-- Witness for the amended C5: along the guarded trace
`register "a" 1; setActive "a"` the active id is registered. -/
theorem activeId_registered_of_guarded_witness :
    ((runProvider initialProvider
      [PEvent.registerInput "a" 1, PEvent.setActiveInput "a"]).inputCallbacks "a").isSome
      = true :=
  activeId_registered_of_guarded
    [PEvent.registerInput "a" 1, PEvent.setActiveInput "a"] (by decide) "a" (by decide)

/-- C7: `registerInput id cb` changes neither `activeInputId` nor the ref,
binds `id` to `cb`, leaves every other id's entry untouched, and repeated
registration of the same id is an overwrite in which the last handler
wins. -/
theorem registerInput_frame_effect :
    ∀ (s : ProviderState) (id : String) (cb : CallbackId),
      (stepState s (PEvent.registerInput id cb)).activeInputId = s.activeInputId
      ∧ (stepState s (PEvent.registerInput id cb)).activeInputIdRef = s.activeInputIdRef
      ∧ (stepState s (PEvent.registerInput id cb)).inputCallbacks id = some cb
      ∧ (∀ k, k ≠ id →
          (stepState s (PEvent.registerInput id cb)).inputCallbacks k
            = s.inputCallbacks k)
      ∧ ∀ cb₀,
          (stepState (stepState s (PEvent.registerInput id cb₀))
            (PEvent.registerInput id cb)).inputCallbacks id = some cb := by
  intro s id cb
  refine ⟨rfl, rfl, by simp [stepState, mapSet], ?_, ?_⟩
  · intro k hk
    simp [stepState, mapSet, hk]
  · intro cb₀
    simp [stepState, mapSet]

/-- Witness for C7 at a concrete registration. -/
theorem registerInput_frame_effect_witness :
    (stepState initialProvider (PEvent.registerInput "i" 7)).activeInputId = none
    ∧ (stepState initialProvider (PEvent.registerInput "i" 7)).inputCallbacks "i"
        = some 7
    ∧ (stepState initialProvider (PEvent.registerInput "i" 7)).inputCallbacks "j"
        = none
    ∧ (stepState (stepState initialProvider (PEvent.registerInput "i" 3))
        (PEvent.registerInput "i" 7)).inputCallbacks "i" = some 7 := by
  obtain ⟨h1, -, h3, h4, h5⟩ := registerInput_frame_effect initialProvider "i" 7
  exact ⟨h1, h3, (h4 "j" (by decide)).trans rfl, h5 3⟩

/-! ## Keyboard Surface (`MathKeyboard` + `keyboardData`) -/

/-- The `dualChar` configuration of a button (`types/index.ts`). -/
structure DualCharConfig where
  primary : String
  primaryLatex : String
  secondary : String
  secondaryLatex : String
deriving DecidableEq

/-- The `type` union of `ButtonConfig`; `var` stands for the source's
string `'variable'`, which is a Lean keyword. -/
inductive ButtonType where
  | symbol
  | number
  | operator
  | function
  | action
  | letter
  | var
deriving DecidableEq

/-- `ButtonConfig` from `types/index.ts`: display glyph, emitted LaTeX,
category, optional style/size/description hints, optional dual-mode
configuration. -/
structure ButtonConfig where
  display : String
  latex : String
  type : ButtonType
  style : Option String := none
  size : Option String := none
  description : Option String := none
  dualChar : Option DualCharConfig := none
deriving DecidableEq

/-- `type KeyboardMode = 'default' | 'abc'` from `MathKeyboard`. -/
inductive KeyboardMode where
  | default
  | abc
deriving DecidableEq

/-- The Keyboard Surface's own `useState` flags. -/
structure KeyboardState where
  isVisible : Bool
  keyboardMode : KeyboardMode
  isShiftActive : Bool
  isFunctionsOpen : Bool
deriving DecidableEq

/-- `handleButtonClick` from `MathKeyboard`, with a Coordinator available:
the first component is the keyboard-local state after the click, the second
is the argument passed to `insertAtCursor` (`none` when nothing is
dispatched).  Dual-character buttons are resolved first and return before
the action switch; the final branch dispatches `button.latex` and then
resets shift after a shifted letter. -/
def handleButtonClick (s : KeyboardState) (b : ButtonConfig) :
    KeyboardState × Option String :=
  match b.dualChar with
  | some d =>
    let activeLatex := if s.isShiftActive then d.secondaryLatex else d.primaryLatex
    if activeLatex = "SUBSCRIPT" then (s, some "SUBSCRIPT_BLOCK")
    else if activeLatex = "SUPERSCRIPT" then (s, some "SUPERSCRIPT_BLOCK")
    else (s, some activeLatex)
  | none =>
    if b.latex = "ABC_MODE" then
      ({ s with keyboardMode := KeyboardMode.abc, isFunctionsOpen := false }, none)
    else if b.latex = "123_MODE" then
      ({ s with keyboardMode := KeyboardMode.default, isShiftActive := false }, none)
    else if b.latex = "SHIFT" then
      ({ s with isShiftActive := !s.isShiftActive }, none)
    else if b.latex = "SUBSCRIPT" then (s, some "SUBSCRIPT_BLOCK")
    else if b.latex = "SUPERSCRIPT" then (s, some "SUPERSCRIPT_BLOCK")
    else if b.latex = "FUNCTIONS" then
      ({ s with isFunctionsOpen := !s.isFunctionsOpen }, none)
    else if b.latex = "SPEAK" then (s, none)
    else if b.latex = "ARROW_LEFT" then (s, some "ARROW_LEFT")
    else if b.latex = "ARROW_RIGHT" then (s, some "ARROW_RIGHT")
    else if b.latex = "BACKSPACE" then (s, some "BACKSPACE")
    else if b.latex = "ENTER" then (s, some "ENTER")
    else if b.type = ButtonType.letter ∧ s.isShiftActive then
      ({ s with isShiftActive := false }, some b.latex)
    else (s, some b.latex)

/-- `defaultLeftSection` from `keyboardData`. -/
def defaultLeftSection : List (List ButtonConfig) :=
  [[⟨"x", "x", ButtonType.var, some "white", none, none, none⟩,
    ⟨"y", "y", ButtonType.var, some "white", none, none, none⟩,
    ⟨"a²", "^\x7b2\x7d", ButtonType.operator, some "white", none, none, none⟩,
    ⟨"aᵇ", "^\x7b\x7d", ButtonType.operator, some "white", none, none, none⟩],
   [⟨"(", "(", ButtonType.symbol, some "white", none, none, none⟩,
    ⟨")", ")", ButtonType.symbol, some "white", none, none, none⟩,
    ⟨"<", "<", ButtonType.operator, some "white", none, none, none⟩,
    ⟨">", ">", ButtonType.operator, some "white", none, none, none⟩],
   [⟨"|a|", "||", ButtonType.operator, some "white", none, none, none⟩,
    ⟨",", ",", ButtonType.symbol, some "white", none, none, none⟩,
    ⟨"≤", "\\leq ", ButtonType.operator, some "white", none, none, none⟩,
    ⟨"≥", "\\geq ", ButtonType.operator, some "white", none, none, none⟩],
   [⟨"A B C", "ABC_MODE", ButtonType.action, some "gray-light", none, none, none⟩,
    ⟨"🔊", "SPEAK", ButtonType.action, some "gray-light", none, none, none⟩,
    ⟨"√", "\\sqrt\x7b\x7d", ButtonType.function, some "white", none, none, none⟩,
    ⟨"π", "\\pi ", ButtonType.symbol, some "white", none, none, none⟩]]

/-- `defaultMiddleSection` from `keyboardData`. -/
def defaultMiddleSection : List (List ButtonConfig) :=
  [[⟨"7", "7", ButtonType.number, some "gray-light", none, none, none⟩,
    ⟨"8", "8", ButtonType.number, some "gray-light", none, none, none⟩,
    ⟨"9", "9", ButtonType.number, some "gray-light", none, none, none⟩,
    ⟨"÷", "\\div ", ButtonType.operator, some "white", none, none, none⟩],
   [⟨"4", "4", ButtonType.number, some "gray-light", none, none, none⟩,
    ⟨"5", "5", ButtonType.number, some "gray-light", none, none, none⟩,
    ⟨"6", "6", ButtonType.number, some "gray-light", none, none, none⟩,
    ⟨"×", "\\times ", ButtonType.operator, some "white", none, none, none⟩],
   [⟨"1", "1", ButtonType.number, some "gray-light", none, none, none⟩,
    ⟨"2", "2", ButtonType.number, some "gray-light", none, none, none⟩,
    ⟨"3", "3", ButtonType.number, some "gray-light", none, none, none⟩,
    ⟨"−", "-", ButtonType.operator, some "white", none, none, none⟩],
   [⟨"0", "0", ButtonType.number, some "gray-light", none, none, none⟩,
    ⟨".", ".", ButtonType.number, some "gray-light", none, none, none⟩,
    ⟨"=", "=", ButtonType.operator, some "gray-light", none, none, none⟩,
    ⟨"+", "+", ButtonType.operator, some "white", none, none, none⟩]]

/-- `defaultRightSection` from `keyboardData`. -/
def defaultRightSection : List (List ButtonConfig) :=
  [[⟨"functions", "FUNCTIONS", ButtonType.action, some "gray-light", some "extra-wide", none, none⟩],
   [⟨"←", "ARROW_LEFT", ButtonType.action, some "gray-light", none, none, none⟩,
    ⟨"→", "ARROW_RIGHT", ButtonType.action, some "gray-light", none, none, none⟩],
   [⟨"⌫", "BACKSPACE", ButtonType.action, some "gray-light", some "extra-wide", none, none⟩],
   [⟨"↵", "ENTER", ButtonType.action, some "blue", some "extra-wide", none, none⟩]]

/-- `abcKeyboardRows` from `keyboardData` (QWERTY layout plus the
dual-character row). -/
def abcKeyboardRows : List (List ButtonConfig) :=
  [[⟨"q", "q", ButtonType.letter, some "white", none, none, none⟩,
    ⟨"w", "w", ButtonType.letter, some "white", none, none, none⟩,
    ⟨"e", "e", ButtonType.letter, some "white", none, none, none⟩,
    ⟨"r", "r", ButtonType.letter, some "white", none, none, none⟩,
    ⟨"t", "t", ButtonType.letter, some "white", none, none, none⟩,
    ⟨"y", "y", ButtonType.letter, some "white", none, none, none⟩,
    ⟨"u", "u", ButtonType.letter, some "white", none, none, none⟩,
    ⟨"i", "i", ButtonType.letter, some "white", none, none, none⟩,
    ⟨"o", "o", ButtonType.letter, some "white", none, none, none⟩,
    ⟨"p", "p", ButtonType.letter, some "white", none, none, none⟩],
   [⟨"a", "a", ButtonType.letter, some "white", none, none, none⟩,
    ⟨"s", "s", ButtonType.letter, some "white", none, none, none⟩,
    ⟨"d", "d", ButtonType.letter, some "white", none, none, none⟩,
    ⟨"f", "f", ButtonType.letter, some "white", none, none, none⟩,
    ⟨"g", "g", ButtonType.letter, some "white", none, none, none⟩,
    ⟨"h", "h", ButtonType.letter, some "white", none, none, none⟩,
    ⟨"j", "j", ButtonType.letter, some "white", none, none, none⟩,
    ⟨"k", "k", ButtonType.letter, some "white", none, none, none⟩,
    ⟨"l", "l", ButtonType.letter, some "white", none, none, none⟩,
    ⟨"θ", "\\theta ", ButtonType.symbol, some "white", none, none, none⟩],
   [⟨"⬆", "SHIFT", ButtonType.action, some "gray-light", some "wide", none, none⟩,
    ⟨"z", "z", ButtonType.letter, some "white", none, none, none⟩,
    ⟨"x", "x", ButtonType.letter, some "white", none, none, none⟩,
    ⟨"c", "c", ButtonType.letter, some "white", none, none, none⟩,
    ⟨"v", "v", ButtonType.letter, some "white", none, none, none⟩,
    ⟨"b", "b", ButtonType.letter, some "white", none, none, none⟩,
    ⟨"n", "n", ButtonType.letter, some "white", none, none, none⟩,
    ⟨"m", "m", ButtonType.letter, some "white", none, none, none⟩,
    ⟨"⌫", "BACKSPACE", ButtonType.action, some "gray-light", some "wide", none, none⟩],
   [⟨"1 2 3", "123_MODE", ButtonType.action, some "gray-light", some "wide", none, none⟩,
    ⟨"aᵥ", "SUBSCRIPT", ButtonType.action, some "white", none, none, none⟩,
    ⟨"! %", "DUAL_EXCLAIM_PERCENT", ButtonType.symbol, some "white", none, none,
      some ⟨"!", "!", "%", "%"⟩⟩,
    ⟨"[ ]", "DUAL_BRACKETS", ButtonType.symbol, some "white", none, none,
      some ⟨"[", "[", "]", "]"⟩⟩,
    ⟨"\x7b \x7d", "DUAL_BRACES", ButtonType.symbol, some "white", none, none,
      some ⟨"\x7b", "\\\x7b", "\x7d", "\\\x7d"⟩⟩,
    ⟨"~ :", "DUAL_TILDE_COLON", ButtonType.symbol, some "white", none, none,
      some ⟨"~", "\\sim ", ":", ":"⟩⟩,
    ⟨", \x27", "DUAL_COMMA_QUOTE", ButtonType.symbol, some "white", none, none,
      some ⟨",", ",", "\x27", "\x27"⟩⟩,
    ⟨"↵", "ENTER", ButtonType.action, some "blue", some "wide", none, none⟩]]

/-- `toUpperCase()` on a string, expressed over the character list so that
the kernel can evaluate it (`String.map`, hence `String.toUpper`, is
defined by well-founded recursion and does not reduce); on the layout's
ASCII letters it agrees with JavaScript `toUpperCase`. -/
def strToUpper (s : String) : String := ⟨s.data.map Char.toUpper⟩

/-- `getUppercaseAbcKeyboard` from `keyboardData`: letters become
uppercase, `SUBSCRIPT` becomes `SUPERSCRIPT`, everything else (including
dual-character buttons) is unchanged. -/
def getUppercaseAbcKeyboard : List (List ButtonConfig) :=
  abcKeyboardRows.map (fun row =>
    row.map (fun btn =>
      if btn.type = ButtonType.letter then
        { btn with display := strToUpper btn.display, latex := strToUpper btn.latex }
      else if btn.latex = "SUBSCRIPT" then
        { btn with display := "aᵇ", latex := "SUPERSCRIPT" }
      else btn))

/-- Every button descriptor a keyboard click can be resolved against: the
three default-mode sections, the abc rows, and their shifted variant. -/
def allKeyboardButtons : List ButtonConfig :=
  (defaultLeftSection ++ defaultMiddleSection ++ defaultRightSection ++
    abcKeyboardRows ++ getUppercaseAbcKeyboard).flatten

/-- The dispatched command of a click depends only on the shift flag, not on
the other keyboard-local state fields. -/
theorem handleButtonClick_snd_eq (s : KeyboardState) (b : ButtonConfig) :
    (handleButtonClick s b).2 =
      (handleButtonClick ⟨true, KeyboardMode.default, s.isShiftActive, true⟩ b).2 := by
  obtain ⟨v, m, sh, fo⟩ := s
  cases hd : b.dualChar with
  | none => simp [handleButtonClick, hd, apply_ite Prod.snd]
  | some d => simp [handleButtonClick, hd, apply_ite Prod.snd]

/-- The shift flag after a click depends only on the shift flag before it,
not on the other keyboard-local state fields. -/
theorem handleButtonClick_shift_eq (s : KeyboardState) (b : ButtonConfig) :
    (handleButtonClick s b).1.isShiftActive =
      (handleButtonClick
        ⟨true, KeyboardMode.default, s.isShiftActive, true⟩ b).1.isShiftActive := by
  obtain ⟨v, m, sh, fo⟩ := s
  cases hd : b.dualChar with
  | none =>
    simp [handleButtonClick, hd,
      apply_ite (fun p : KeyboardState × Option String => p.1.isShiftActive)]
  | some d =>
    simp [handleButtonClick, hd,
      apply_ite (fun p : KeyboardState × Option String => p.1.isShiftActive)]

/-- C8 (amended): in every keyboard-local state, a button of the layout
tables produces no `insertAtCursor` dispatch exactly when it is one of the
mode switches, the shift toggle, the functions-panel toggle, or the `SPEAK`
button (which the source leaves without any functionality); every other
button is forwarded to the Coordinator. -/
theorem keyboard_dispatch_partition :
    ∀ (s : KeyboardState), ∀ b ∈ allKeyboardButtons,
      ((handleButtonClick s b).2 = none ↔
        b.latex ∈ ["ABC_MODE", "123_MODE", "SHIFT", "FUNCTIONS", "SPEAK"]) := by
  intro s
  have h : ∀ b ∈ allKeyboardButtons,
      ((handleButtonClick ⟨true, KeyboardMode.default, s.isShiftActive, true⟩ b).2
          = none ↔
        b.latex ∈ ["ABC_MODE", "123_MODE", "SHIFT", "FUNCTIONS", "SPEAK"]) := by
    cases s.isShiftActive <;> decide
  intro b hb
  rw [handleButtonClick_snd_eq]
  exact h b hb

/-- C8 counterexample: the `SPEAK` button of `defaultLeftSection` is neither
a mode switch, the shift toggle, nor the functions toggle, yet its
activation performs no dispatch at all (and no state change): the source's
`case 'SPEAK'` is an explicit no-op. -/
theorem speak_button_not_dispatched_cex :
    handleButtonClick ⟨true, KeyboardMode.default, false, false⟩
        ⟨"🔊", "SPEAK", ButtonType.action, some "gray-light", none, none, none⟩
      = (⟨true, KeyboardMode.default, false, false⟩, none)
    ∧ (⟨"🔊", "SPEAK", ButtonType.action, some "gray-light", none, none, none⟩ :
        ButtonConfig) ∈ allKeyboardButtons := by
  decide

/-- Witness for the amended C8: the `ABC_MODE` button dispatches nothing. -/
theorem keyboard_dispatch_partition_witness :
    (handleButtonClick ⟨true, KeyboardMode.default, false, false⟩
      ⟨"A B C", "ABC_MODE", ButtonType.action, some "gray-light", none, none,
        none⟩).2 = none :=
  (keyboard_dispatch_partition ⟨true, KeyboardMode.default, false, false⟩
    ⟨"A B C", "ABC_MODE", ButtonType.action, some "gray-light", none, none, none⟩
    (by decide)).mpr (by decide)

/-- C9: every dual-mode button of the layout dispatches its primary LaTeX
when shift is off and its secondary LaTeX when shift is on. -/
theorem dual_mode_resolution :
    ∀ (s : KeyboardState), ∀ b ∈ allKeyboardButtons, ∀ d, b.dualChar = some d →
      (handleButtonClick s b).2 =
        some (if s.isShiftActive then d.secondaryLatex else d.primaryLatex) := by
  intro s
  have h : ∀ b ∈ allKeyboardButtons, ∀ d ∈ b.dualChar.toList,
      (handleButtonClick ⟨true, KeyboardMode.default, s.isShiftActive, true⟩ b).2 =
        some (if s.isShiftActive then d.secondaryLatex else d.primaryLatex) := by
    cases s.isShiftActive <;> decide
  intro b hb d hd
  rw [handleButtonClick_snd_eq]
  exact h b hb d (by simp [hd])

/-- Witness for C9 at the `'! %'` button: `'!'` unshifted, `'%'` shifted. -/
theorem dual_mode_resolution_witness :
    (handleButtonClick ⟨true, KeyboardMode.abc, false, false⟩
      ⟨"! %", "DUAL_EXCLAIM_PERCENT", ButtonType.symbol, some "white", none, none,
        some ⟨"!", "!", "%", "%"⟩⟩).2 = some "!"
    ∧ (handleButtonClick ⟨true, KeyboardMode.abc, true, false⟩
      ⟨"! %", "DUAL_EXCLAIM_PERCENT", ButtonType.symbol, some "white", none, none,
        some ⟨"!", "!", "%", "%"⟩⟩).2 = some "%" :=
  ⟨(dual_mode_resolution ⟨true, KeyboardMode.abc, false, false⟩
      ⟨"! %", "DUAL_EXCLAIM_PERCENT", ButtonType.symbol, some "white", none, none,
        some ⟨"!", "!", "%", "%"⟩⟩ (by decide) ⟨"!", "!", "%", "%"⟩ rfl).trans
      (by decide),
   (dual_mode_resolution ⟨true, KeyboardMode.abc, true, false⟩
      ⟨"! %", "DUAL_EXCLAIM_PERCENT", ButtonType.symbol, some "white", none, none,
        some ⟨"!", "!", "%", "%"⟩⟩ (by decide) ⟨"!", "!", "%", "%"⟩ rfl).trans
      (by decide)⟩

/-- C10 counterexample: the `123_MODE` button is not a letter, not a
dual-mode button and not the `SHIFT` button, yet activating it with shift
active leaves the shift flag cleared (`setIsShiftActive(false)` in its
switch case), so buttons other than `SHIFT` and letters do change the shift
flag. -/
theorem mode123_clears_shift_cex :
    (handleButtonClick ⟨true, KeyboardMode.abc, true, false⟩
        ⟨"1 2 3", "123_MODE", ButtonType.action, some "gray-light", some "wide",
          none, none⟩).1.isShiftActive = false
    ∧ (⟨"1 2 3", "123_MODE", ButtonType.action, some "gray-light", some "wide",
          none, none⟩ : ButtonConfig) ∈ allKeyboardButtons
    ∧ ButtonType.action ≠ ButtonType.letter := by
  decide

/-- C10 (amended): for every button of the layout, the shift flag after a
click is: unchanged for dual-mode buttons, toggled by `SHIFT`, cleared by
`123_MODE`, cleared by any letter (the auto-reset after one shifted
letter), and unchanged for every other button. -/
theorem shift_flag_characterization :
    ∀ (s : KeyboardState), ∀ b ∈ allKeyboardButtons,
      (handleButtonClick s b).1.isShiftActive =
        if b.dualChar.isSome then s.isShiftActive
        else if b.latex = "SHIFT" then !s.isShiftActive
        else if b.latex = "123_MODE" then false
        else if b.type = ButtonType.letter then false
        else s.isShiftActive := by
  intro s
  have h : ∀ b ∈ allKeyboardButtons,
      (handleButtonClick
          ⟨true, KeyboardMode.default, s.isShiftActive, true⟩ b).1.isShiftActive =
        if b.dualChar.isSome then s.isShiftActive
        else if b.latex = "SHIFT" then !s.isShiftActive
        else if b.latex = "123_MODE" then false
        else if b.type = ButtonType.letter then false
        else s.isShiftActive := by
    cases s.isShiftActive <;> decide
  intro b hb
  rw [handleButtonClick_shift_eq]
  exact h b hb

/-- Witness for the amended C10: a shifted letter click clears shift. -/
theorem shift_flag_characterization_witness :
    (handleButtonClick ⟨true, KeyboardMode.abc, true, false⟩
      ⟨"q", "q", ButtonType.letter, some "white", none, none,
        none⟩).1.isShiftActive = false :=
  (shift_flag_characterization ⟨true, KeyboardMode.abc, true, false⟩
    ⟨"q", "q", ButtonType.letter, some "white", none, none, none⟩
    (by decide)).trans (by decide)

/-! ## Input Adapter (`MathInput`) -/

/-- An edit primitive invoked on the MathQuill `MathField` instance by the
adapter's command handler. -/
inductive MQOp where
  | keystroke (k : String)
  | blur
  | cmd (c : String)
  | focus
  | write (latex : String)
deriving DecidableEq

/-- Observable outcome of mounting a `MathInput`. -/
structure MathInputMountResult where
  consoleErrors : Nat
  onErrorCalls : Nat
  mathFieldInitialized : Bool
  registeredHandler : Bool
  rendersDisabledClass : Bool
deriving DecidableEq

/-- The mount-time effects of `MathInput`, from the source's two `useEffect`
blocks, in the given environment: `mqAvailable` is whether `getMQ()` finds
`window.MathQuill`; `constructionThrows` is whether `MQ.MathField` throws an
`Error` inside the `try`; `hasOnError`/`hasContext`/`disabled` are the
`onError` prop, the provider context, and the `disabled` prop.
The initialization effect: a missing capability only `console.error`s and
returns (no `onError` call); a throwing constructor reaches the `catch`,
which calls `onError` when supplied and `console.error`s; otherwise a live
math field is stored in the ref.  The registration effect runs
unconditionally on mount and registers `handleKeyboardInsertion` with the
provider whenever one is present.  The `mathex-input--disabled` class
depends only on the `disabled` prop. -/
def mathInputMount (mqAvailable constructionThrows hasOnError hasContext
    disabled : Bool) : MathInputMountResult :=
  if !mqAvailable then
    { consoleErrors := 1, onErrorCalls := 0, mathFieldInitialized := false,
      registeredHandler := hasContext, rendersDisabledClass := disabled }
  else if constructionThrows then
    { consoleErrors := 1, onErrorCalls := if hasOnError then 1 else 0,
      mathFieldInitialized := false,
      registeredHandler := hasContext, rendersDisabledClass := disabled }
  else
    { consoleErrors := 0, onErrorCalls := 0, mathFieldInitialized := true,
      registeredHandler := hasContext, rendersDisabledClass := disabled }

/-- `handleKeyboardInsertion` from `MathInput`: the edit primitives executed
against the math field for one routed command; when the field ref is null
(initialization failed) it logs and performs none. -/
def handleKeyboardInsertion (mathFieldPresent : Bool) (insertedLatex : String) :
    List MQOp :=
  if !mathFieldPresent then []
  else if insertedLatex = "BACKSPACE" then [MQOp.keystroke "Backspace"]
  else if insertedLatex = "ARROW_LEFT" then [MQOp.keystroke "Left"]
  else if insertedLatex = "ARROW_RIGHT" then [MQOp.keystroke "Right"]
  else if insertedLatex = "ENTER" then [MQOp.blur]
  else if insertedLatex = "SUBSCRIPT_BLOCK" then [MQOp.cmd "_", MQOp.focus]
  else if insertedLatex = "SUPERSCRIPT_BLOCK" then [MQOp.cmd "^", MQOp.focus]
  else [MQOp.write insertedLatex, MQOp.focus]

/-- C6 counterexample: with the equation engine unavailable
(`window.MathQuill` undefined), an `onError` prop supplied, a provider
present, and `disabled = false`, the mounted adapter calls `onError` zero
times (the source only logs `console.error` and returns before the
`try/catch`), still registers its command handler with the Coordinator (the
registration effect runs unconditionally on mount), and applies no disabled
styling — contradicting all three parts of the claim. -/
theorem init_failure_cex :
    (mathInputMount false false true true false).onErrorCalls = 0
    ∧ (mathInputMount false false true true false).registeredHandler = true
    ∧ (mathInputMount false false true true false).rendersDisabledClass = false := by
  decide

/-- C6 (amended): `onError` is invoked exactly when the engine constructor
throws with an `onError` prop supplied — a missing capability is only
logged; the adapter registers its handler with the Coordinator whenever a
provider is present, regardless of the initialization outcome; the handler
performs no edit primitive while the field is absent; and the disabled
appearance tracks only the `disabled` prop. -/
theorem init_failure_behaviour :
    ∀ (mq ct oe ctx dis : Bool) (latex : String),
      (mathInputMount mq ct oe ctx dis).onErrorCalls
          = (if mq && ct && oe then 1 else 0)
      ∧ (mathInputMount mq ct oe ctx dis).registeredHandler = ctx
      ∧ (mathInputMount mq ct oe ctx dis).mathFieldInitialized = (mq && !ct)
      ∧ (mathInputMount mq ct oe ctx dis).rendersDisabledClass = dis
      ∧ handleKeyboardInsertion false latex = [] := by
  intro mq ct oe ctx dis latex
  refine ⟨?_, ?_, ?_, ?_, rfl⟩ <;>
    cases mq <;> cases ct <;> cases oe <;> simp [mathInputMount]

end Mathex
